import Mathlib

/-!
Shallow embedding of the API-gateway dashboard front end (`App` component):
its React state variables, the `fetchMetrics` / `fetchHealth` response
handlers, the Connect / Logout click handlers, the polling guard and the
three-way render derivation, together with theorems settling the spec
claims about them.
-/

namespace Dashboard

/-- The metrics record returned by a successful `GET /metrics`
(`total_requests`, `rate_limited_requests`, `average_latency_ms`,
`p95_latency_ms`). Latencies are non-negative floats in the source;
they are modelled as rationals. -/
structure MetricsSnapshot where
  total_requests : Nat
  rate_limited_requests : Nat
  average_latency_ms : Rat
  p95_latency_ms : Rat
deriving DecidableEq

/-- One chart sample pushed into `history` by `fetchMetrics`:
`\x7b time, requests, rateLimited \x7d`. -/
structure HistorySample where
  time : String
  requests : Nat
  rateLimited : Nat
deriving DecidableEq

/-- The health record held in the `health` state variable. The `status`
field is optional because an arbitrary JSON body may lack it
(`health?.status` is then `undefined`). -/
structure HealthStatus where
  status : Option String
deriving DecidableEq

/-- The `App` component state: the seven `useState` variables
`apiKey`, `connected`, `darkMode`, `metrics`, `history`, `health`,
`error` (JS `null` is `Option.none`). -/
structure AppState where
  apiKey : String
  connected : Bool
  darkMode : Bool
  metrics : Option MetricsSnapshot
  history : List HistorySample
  health : Option HealthStatus
  error : Option String
deriving DecidableEq

/-- The initial values of the seven `useState` calls. -/
def initialState : AppState :=
  { apiKey := "", connected := false, darkMode := true, metrics := none,
    history := [], health := none, error := none }

/-- JS `arr.slice(-n)`: the last `min n arr.length` elements. -/
def lastN (n : Nat) (l : List α) : List α :=
  l.drop (l.length - n)

/-- The possible outcomes of one `fetchMetrics` network round-trip, as the
source distinguishes them: `res.ok` with a parsed body (paired with the
wall-clock `toLocaleTimeString` string), a non-ok status whose JSON body
parsed (with or without a `detail` field), a non-ok status whose body
failed to parse (`res.json()` throws into the catch), and a transport
failure (`fetch` itself throws). -/
inductive MetricsFetchOutcome where
  | success (data : MetricsSnapshot) (time : String)
  | httpError (detail : Option String)
  | httpErrorBadBody
  | transportFailure
deriving DecidableEq

/-- The sample object `fetchMetrics` builds from a successful response. -/
def mkSample (data : MetricsSnapshot) (time : String) : HistorySample :=
  { time := time, requests := data.total_requests,
    rateLimited := data.rate_limited_requests }

/-- JS `v || dflt` restricted to optional strings: the empty string is
falsy, so it also selects the default. -/
def jsStringOr (v : Option String) (dflt : String) : String :=
  match v with
  | some s => if s = "" then dflt else s
  | none => dflt

/-- State update performed by the `fetchMetrics` handler once its network
outcome is known. Non-ok: `setError(err.detail || "Invalid API key")`
then `setConnected(false)`. Ok: `setMetrics(data)`, `setError(null)`,
`setHistory(prev => [...prev.slice(-19), sample])`. Any throw lands in
the catch: `setError("Server not reachable")`. -/
def processMetricsResponse (o : MetricsFetchOutcome) (s : AppState) : AppState :=
  match o with
  | .httpError detail =>
      { s with error := some (jsStringOr detail "Invalid API key"),
               connected := false }
  | .httpErrorBadBody =>
      { s with error := some "Server not reachable" }
  | .transportFailure =>
      { s with error := some "Server not reachable" }
  | .success data time =>
      { s with metrics := some data, error := none,
               history := lastN 19 s.history ++ [mkSample data time] }

/-- Outcomes of one `fetchHealth` round-trip: a parsed body (the source
never checks `res.ok` here), or any throw (network or parse). -/
inductive HealthFetchOutcome where
  | success (data : HealthStatus)
  | failure
deriving DecidableEq

/-- State update performed by the `fetchHealth` handler:
`setHealth(data)` on success, `setHealth(\x7bstatus: "down"\x7d)` in the
catch. It never touches `error`. -/
def processHealthResponse (o : HealthFetchOutcome) (s : AppState) : AppState :=
  match o with
  | .success data => { s with health := some data }
  | .failure => { s with health := some { status := some "down" } }

/-- Typing in the credential input: `onChange` sets `apiKey`. -/
def setApiKeyInput (s : AppState) (c : String) : AppState :=
  { s with apiKey := c }

/-- JS `str.trim()`: the string with leading and trailing whitespace
removed. -/
def jsTrim (s : String) : String :=
  String.mk (((s.data.dropWhile Char.isWhitespace).reverse.dropWhile
    Char.isWhitespace).reverse)

/-- The Connect button `onClick`: if `apiKey.trim()` is falsy (empty),
set the error message and return; otherwise clear `history` and
`metrics` and set `connected = true`. -/
def connectClick (s : AppState) : AppState :=
  if jsTrim s.apiKey = "" then
    { s with error := some "Please enter API key" }
  else
    { s with history := [], metrics := none, connected := true }

/-- Submitting a credential candidate: the input stores it in `apiKey`,
then the Connect button is clicked. -/
def submit (c : String) (s : AppState) : AppState :=
  connectClick (setApiKeyInput s c)

/-- The Logout button `onClick`: `setConnected(false)` and
`setApiKey("")`; nothing else is reset. -/
def logoutClick (s : AppState) : AppState :=
  { s with connected := false, apiKey := "" }

/-- The polling `useEffect` guard: fetches are issued (immediately and on
each 2000 ms interval tick) exactly while `connected` is true; the effect
cleanup clears the interval when `connected` turns false. -/
def schedulerFires (s : AppState) : Bool :=
  s.connected

/-- `health?.status === "healthy"`: the dashboard health indicator shows
Healthy exactly when the optional chain produces the string `"healthy"`. -/
def isHealthyIndicator (h : Option HealthStatus) : Bool :=
  match h with
  | some hv =>
      match hv.status with
      | some st => st == "healthy"
      | none => false
  | none => false

/-- The chart series derived from `history`: labels from `time`, one
dataset from `requests`, one from `rateLimited`. -/
structure ChartData where
  labels : List String
  requestsSeries : List Nat
  rateLimitedSeries : List Nat
deriving DecidableEq

/-- `chartData` as built in the component body. -/
def toChartData (history : List HistorySample) : ChartData :=
  { labels := history.map (fun h => h.time),
    requestsSeries := history.map (fun h => h.requests),
    rateLimitedSeries := history.map (fun h => h.rateLimited) }

/-- The three render modes of `App`: the login screen (showing any error
message), the loading placeholder, and the dashboard (metrics cards,
chart, health indicator). -/
inductive View where
  | login (errMsg : Option String)
  | loading
  | dashboard (m : MetricsSnapshot) (chart : ChartData) (healthy : Bool)
deriving DecidableEq

/-- Whether a view is the login screen. -/
def View.isLogin : View → Bool
  | .login _ => true
  | _ => false

/-- Whether a view is the loading placeholder. -/
def View.isLoading : View → Bool
  | .loading => true
  | _ => false

/-- Whether a view is the dashboard. -/
def View.isDashboard : View → Bool
  | .dashboard _ _ _ => true
  | _ => false

/-- The health flag a view displays (only the dashboard shows one). -/
def View.healthyShown : View → Bool
  | .dashboard _ _ b => b
  | _ => false

/-- The render derivation of `App`: `if (!connected)` return the login
screen; `if (!metrics)` return the loading placeholder; otherwise the
dashboard built from `metrics`, the chart data and the health check. -/
def render (s : AppState) : View :=
  if s.connected = false then
    .login s.error
  else
    match s.metrics with
    | none => .loading
    | some m => .dashboard m (toChartData s.history) (isHealthyIndicator s.health)

/-- A run of consecutive successful metrics polls: each input pairs the
response body with its capture-time string. -/
def runPolls (inputs : List (MetricsSnapshot × String)) (s : AppState) : AppState :=
  inputs.foldl (fun st p => processMetricsResponse (.success p.1 p.2) st) s

/-- Whether a metrics outcome is a failure (anything but a 2xx parse). -/
def isFailureOutcome : MetricsFetchOutcome → Bool
  | .success _ _ => false
  | _ => true

/-- The success body of the first scenario poll in the spec. -/
def exampleSnapshot : MetricsSnapshot :=
  { total_requests := 10, rate_limited_requests := 0,
    average_latency_ms := 5, p95_latency_ms := 12 }

/-- A distinct later success body. -/
def laterSnapshot : MetricsSnapshot :=
  { total_requests := 20, rate_limited_requests := 1,
    average_latency_ms := 6, p95_latency_ms := 13 }

/-- A connected session that has completed one successful poll of
`exampleSnapshot` and a healthy health check. -/
def connectedState : AppState :=
  { apiKey := "abc", connected := true, darkMode := true,
    metrics := some exampleSnapshot,
    history := [mkSample exampleSnapshot "t1"],
    health := some { status := some "healthy" }, error := none }

/-- The state right after pressing Logout in `connectedState`. -/
def postLogoutState : AppState := logoutClick connectedState

/-- A run of 25 successful polls with strictly increasing request totals. -/
def demoInputs : List (MetricsSnapshot × String) :=
  (List.range 25).map (fun i =>
    ({ total_requests := 10 * (i + 1), rate_limited_requests := 0,
       average_latency_ms := 5, p95_latency_ms := 12 }, "t"))

theorem lastN_length (n : Nat) (l : List α) : (lastN n l).length = min n l.length := by
  simp only [lastN, List.length_drop]
  omega

theorem lastN_of_length_le (n : Nat) (l : List α) (h : l.length ≤ n) :
    lastN n l = l := by
  simp [lastN, Nat.sub_eq_zero_of_le h]

theorem lastN_lastN (m n : Nat) (l : List α) (h : m ≤ n) :
    lastN m (lastN n l) = lastN m l := by
  unfold lastN
  rw [List.length_drop, List.drop_drop]
  congr 1
  omega

theorem lastN_append_one (n : Nat) (l : List α) (x : α) :
    lastN (n + 1) (l ++ [x]) = lastN n l ++ [x] := by
  unfold lastN
  have h1 : (l ++ [x]).length - (n + 1) = l.length - n := by
    simp only [List.length_append, List.length_cons, List.length_nil]
    omega
  rw [h1, List.drop_append_of_le_length (Nat.sub_le l.length n)]

theorem runPolls_append_one (inputs : List (MetricsSnapshot × String))
    (p : MetricsSnapshot × String) (s : AppState) :
    runPolls (inputs ++ [p]) s =
      processMetricsResponse (.success p.1 p.2) (runPolls inputs s) := by
  simp [runPolls, List.foldl_append]

/-- Invariant characterization of a poll run: starting from a history of
at most 20 samples, the final history is the last 20 of the starting
history followed by one sample per poll, in order. -/
theorem runPolls_history (inputs : List (MetricsSnapshot × String)) (s : AppState)
    (hs : s.history.length ≤ 20) :
    (runPolls inputs s).history =
      lastN 20 (s.history ++ inputs.map (fun p => mkSample p.1 p.2)) := by
  induction inputs using List.reverseRecOn with
  | nil =>
      simp only [runPolls, List.foldl_nil, List.map_nil, List.append_nil]
      exact (lastN_of_length_le 20 s.history hs).symm
  | append_singleton is p ih =>
      rw [runPolls_append_one]
      show lastN 19 (runPolls is s).history ++ [mkSample p.1 p.2] = _
      rw [ih, lastN_lastN 19 20 _ (by omega), ← lastN_append_one 19,
        List.map_append, List.map_cons, List.map_nil, ← List.append_assoc]

/-- C1 counterexample: at a connected state with one recorded sample, a
non-success response with body detail "bad key" does change
ConnectionState — the non-ok branch of `fetchMetrics` calls
`setConnected(false)`, so the session does not stay Connected and the
claim as stated is false. -/
theorem C1_counterexample :
    connectedState.connected = true ∧
    (processMetricsResponse (.httpError (some "bad key")) connectedState).error =
      some "bad key" ∧
    (processMetricsResponse (.httpError (some "bad key")) connectedState).connected =
      false := by
  decide

/-- C1 (amended): on every non-success HTTP response, `fetchMetrics` sets
ErrorState to the failure message AND resets ConnectionState to
Disconnected, so polling stops rather than continuing; MetricsSnapshot
and HistoryBuffer are left unchanged in state, but the next render is the
login view (with the message), not the stale dashboard. -/
theorem C1_nonsuccess_disconnects (s : AppState) (detail : Option String) :
    (processMetricsResponse (.httpError detail) s).error =
      some (jsStringOr detail "Invalid API key") ∧
    (processMetricsResponse (.httpError detail) s).connected = false ∧
    (processMetricsResponse (.httpError detail) s).metrics = s.metrics ∧
    (processMetricsResponse (.httpError detail) s).history = s.history ∧
    schedulerFires (processMetricsResponse (.httpError detail) s) = false ∧
    render (processMetricsResponse (.httpError detail) s) =
      View.login (some (jsStringOr detail "Invalid API key")) := by
  exact ⟨rfl, rfl, rfl, rfl, rfl, rfl⟩

/-- C2 counterexample: logging out from a connected state with one
recorded sample leaves HistoryBuffer non-empty and MetricsSnapshot
present — the Logout handler only resets `connected` and `apiKey`, so
the claim as stated is false. -/
theorem C2_counterexample :
    (logoutClick connectedState).history ≠ [] ∧
    (logoutClick connectedState).metrics ≠ none := by
  decide

/-- C2 (amended): `logout()` resets Credential to the empty string and
ConnectionState to Disconnected, but leaves HistoryBuffer,
MetricsSnapshot, HealthStatus, ErrorState and the theme flag untouched;
history and metrics are only cleared later, by the next connect. -/
theorem C2_logout_partial_reset (s : AppState) :
    (logoutClick s).apiKey = "" ∧
    (logoutClick s).connected = false ∧
    (logoutClick s).history = s.history ∧
    (logoutClick s).metrics = s.metrics ∧
    (logoutClick s).health = s.health ∧
    (logoutClick s).error = s.error ∧
    (logoutClick s).darkMode = s.darkMode := by
  exact ⟨rfl, rfl, rfl, rfl, rfl, rfl, rfl⟩

/-- C3: the interval is indeed stopped once disconnected (the effect
cleanup), but the claim that every late in-flight response is a no-op
fails on the code — the response handlers never re-check `connected`, so
at the concrete post-logout state a late success still appends to
history and replaces metrics, and a late failure still sets the error. -/
theorem C3_late_response_mutates :
    postLogoutState.connected = false ∧
    schedulerFires postLogoutState = false ∧
    (processMetricsResponse (.success laterSnapshot "t2") postLogoutState).history ≠
      postLogoutState.history ∧
    (processMetricsResponse (.success laterSnapshot "t2") postLogoutState).metrics =
      some laterSnapshot ∧
    (processMetricsResponse .transportFailure postLogoutState).error ≠
      postLogoutState.error := by
  decide

/-- C4: from an empty history, after n successful polls the buffer is the
last 20 of the n samples in insertion order (so its length is
min(n, 20), FIFO eviction drops one oldest sample per overflow append),
and after 25 polls the first retained sample is the 6th poll's. -/
theorem C4_history_fifo (inputs : List (MetricsSnapshot × String)) (s : AppState)
    (hs : s.history = []) :
    (runPolls inputs s).history =
      lastN 20 (inputs.map (fun p => mkSample p.1 p.2)) ∧
    (runPolls inputs s).history.length = min inputs.length 20 ∧
    (inputs.length = 25 →
      (runPolls inputs s).history.head? =
        (inputs.map (fun p => mkSample p.1 p.2))[5]?) := by
  have hc := runPolls_history inputs s (by rw [hs]; simp)
  rw [hs, List.nil_append] at hc
  refine ⟨hc, ?_, ?_⟩
  · rw [hc, lastN_length, List.length_map]
    omega
  · intro h25
    rw [hc]
    unfold lastN
    rw [List.length_map, h25]
    show ((inputs.map _).drop 5).head? = _
    exact List.head?_drop _ 5

/-- C4 witness: the 25-poll demo run from the initial (empty-history)
state. -/
theorem C4_history_fifo_witness :
    initialState.history = [] ∧
    ((runPolls demoInputs initialState).history =
        lastN 20 (demoInputs.map (fun p => mkSample p.1 p.2)) ∧
      (runPolls demoInputs initialState).history.length = min demoInputs.length 20 ∧
      (demoInputs.length = 25 →
        (runPolls demoInputs initialState).history.head? =
          (demoInputs.map (fun p => mkSample p.1 p.2))[5]?)) :=
  ⟨rfl, C4_history_fifo demoInputs initialState rfl⟩

/-- C5: submitting a blank-after-trim candidate only sets the error
message (ConnectionState stays as it was, so still Disconnected, and no
polling can start); a non-blank candidate clears history and metrics,
connects, and adopts the candidate as the credential, with no
verification step in between. -/
theorem C5_submit (s : AppState) (c : String) :
    (jsTrim c = "" →
      submit c s = { s with apiKey := c, error := some "Please enter API key" } ∧
      (submit c s).connected = s.connected ∧
      schedulerFires (submit c s) = s.connected) ∧
    (jsTrim c ≠ "" →
      submit c s =
        { s with apiKey := c, history := [], metrics := none, connected := true }) := by
  constructor
  · intro h
    simp [submit, setApiKeyInput, connectClick, schedulerFires, h]
  · intro h
    simp [submit, setApiKeyInput, connectClick, h]

/-- C5 witness: the blank candidate "  " and the non-blank candidate
"abc", both submitted from the initial state. -/
theorem C5_submit_witness :
    jsTrim "  " = "" ∧
    submit "  " initialState =
      { initialState with apiKey := "  ", error := some "Please enter API key" } ∧
    jsTrim "abc" ≠ "" ∧
    submit "abc" initialState =
      { initialState with
        apiKey := "abc", history := [], metrics := none, connected := true } :=
  ⟨by decide, ((C5_submit initialState "  ").1 (by decide)).1, by decide,
    (C5_submit initialState "abc").2 (by decide)⟩

/-- C6: any failed metrics fetch leaves the history untouched (same
list, hence same length and contents) and sets some error message; any
successful fetch clears the error and appends exactly one sample,
evicting past the 20-sample cap. -/
theorem C6_failure_frame (s : AppState) (o : MetricsFetchOutcome) :
    (isFailureOutcome o = true →
      (processMetricsResponse o s).history = s.history ∧
      ∃ m, (processMetricsResponse o s).error = some m) ∧
    (∀ d t, (processMetricsResponse (.success d t) s).error = none ∧
      (processMetricsResponse (.success d t) s).history =
        lastN 19 s.history ++ [mkSample d t] ∧
      (processMetricsResponse (.success d t) s).history.length =
        min (s.history.length + 1) 20) := by
  constructor
  · intro h
    cases o with
    | success d t => simp [isFailureOutcome] at h
    | httpError detail => exact ⟨rfl, _, rfl⟩
    | httpErrorBadBody => exact ⟨rfl, _, rfl⟩
    | transportFailure => exact ⟨rfl, _, rfl⟩
  · intro d t
    refine ⟨rfl, rfl, ?_⟩
    show (lastN 19 s.history ++ [mkSample d t]).length = _
    rw [List.length_append, lastN_length]
    simp only [List.length_cons, List.length_nil]
    omega

/-- C6 witness: a transport failure and then a successful fetch at the
concrete connected state. -/
theorem C6_failure_frame_witness :
    (isFailureOutcome .transportFailure = true ∧
      (processMetricsResponse .transportFailure connectedState).history =
        connectedState.history ∧
      ∃ m, (processMetricsResponse .transportFailure connectedState).error = some m) ∧
    ((processMetricsResponse (.success laterSnapshot "t2") connectedState).error =
        none ∧
      (processMetricsResponse (.success laterSnapshot "t2") connectedState).history =
        lastN 19 connectedState.history ++ [mkSample laterSnapshot "t2"] ∧
      (processMetricsResponse (.success laterSnapshot "t2") connectedState).history.length =
        min (connectedState.history.length + 1) 20) :=
  ⟨⟨rfl, ((C6_failure_frame connectedState .transportFailure).1 rfl).1,
      ((C6_failure_frame connectedState .transportFailure).1 rfl).2⟩,
    (C6_failure_frame connectedState .transportFailure).2 laterSnapshot "t2"⟩

/-- C7 counterexample: a response body whose `detail` field is present
but equal to the empty string yields the default message, not the
(empty) detail — `err.detail || "Invalid API key"` goes through JS
truthiness, so the claim as stated is false. -/
theorem C7_counterexample :
    (processMetricsResponse (.httpError (some "")) connectedState).error =
      some "Invalid API key" ∧
    ("Invalid API key" : String) ≠ "" := by
  decide

/-- C7 (amended): the error message equals the `detail` field when it is
present and non-empty (truthy); when `detail` is absent or empty the
default "Invalid API key" is used; a transport failure or a malformed
body yields "Server not reachable". -/
theorem C7_error_messages (s : AppState) (d : String) :
    (d ≠ "" →
      (processMetricsResponse (.httpError (some d)) s).error = some d) ∧
    (processMetricsResponse (.httpError (some "")) s).error =
      some "Invalid API key" ∧
    (processMetricsResponse (.httpError none) s).error =
      some "Invalid API key" ∧
    (processMetricsResponse .transportFailure s).error =
      some "Server not reachable" ∧
    (processMetricsResponse .httpErrorBadBody s).error =
      some "Server not reachable" := by
  refine ⟨?_, ?_, rfl, rfl, rfl⟩
  · intro h
    simp [processMetricsResponse, jsStringOr, h]
  · simp [processMetricsResponse, jsStringOr]

/-- C7 witness: the non-empty detail "bad key" at the initial state. -/
theorem C7_error_messages_witness :
    ("bad key" : String) ≠ "" ∧
    (processMetricsResponse (.httpError (some "bad key")) initialState).error =
      some "bad key" :=
  ⟨by decide, (C7_error_messages initialState "bad key").1 (by decide)⟩

/-- C8: the health handler never touches ErrorState; any health-fetch
failure yields the synthetic down record; the dashboard health flag is
Healthy exactly for the literal status "healthy" (so the synthetic down
status, a missing field, or any other value renders Down); and the
dashboard view carries exactly that flag. -/
theorem C8_health_isolated (s : AppState) (o : HealthFetchOutcome) :
    (processHealthResponse o s).error = s.error ∧
    (processHealthResponse .failure s).health = some { status := some "down" } ∧
    (∀ h : Option HealthStatus,
      isHealthyIndicator h = true ↔ h = some { status := some "healthy" }) ∧
    isHealthyIndicator (some { status := some "down" }) = false ∧
    (∀ m, s.connected = true → s.metrics = some m →
      render s =
        View.dashboard m (toChartData s.history) (isHealthyIndicator s.health)) := by
  refine ⟨?_, rfl, ?_, by decide, ?_⟩
  · cases o <;> rfl
  · intro h
    match h with
    | none => simp [isHealthyIndicator]
    | some { status := none } => simp [isHealthyIndicator]
    | some { status := some v } => simp [isHealthyIndicator]
  · intro m hc hm
    simp [render, hc, hm]

/-- C8 witness: the failure outcome at the concrete connected state,
whose health is healthy and whose metrics snapshot is present. -/
theorem C8_health_isolated_witness :
    (processHealthResponse .failure connectedState).error = connectedState.error ∧
    (processHealthResponse .failure connectedState).health =
      some { status := some "down" } ∧
    (isHealthyIndicator (some { status := some "healthy" }) = true ↔
      (some { status := some "healthy" } : Option HealthStatus) =
        some { status := some "healthy" }) ∧
    (connectedState.connected = true ∧ connectedState.metrics = some exampleSnapshot ∧
      render connectedState =
        View.dashboard exampleSnapshot (toChartData connectedState.history)
          (isHealthyIndicator connectedState.health)) :=
  ⟨(C8_health_isolated connectedState .failure).1,
    (C8_health_isolated connectedState .failure).2.1,
    (C8_health_isolated connectedState .failure).2.2.1 (some { status := some "healthy" }),
    rfl, rfl,
    (C8_health_isolated connectedState .failure).2.2.2.2 exampleSnapshot rfl rfl⟩

/-- C9: the rendered view is a pure three-way function of state: the
login view (carrying the ErrorState message) exactly when disconnected,
the loading view exactly when connected with no metrics snapshot, and
the dashboard exactly when connected with a snapshot. -/
theorem C9_render_threeway (s : AppState) :
    ((render s).isLogin = true ↔ s.connected = false) ∧
    (s.connected = false → render s = View.login s.error) ∧
    ((render s).isLoading = true ↔ (s.connected = true ∧ s.metrics = none)) ∧
    ((render s).isDashboard = true ↔ (s.connected = true ∧ s.metrics ≠ none)) := by
  obtain ⟨k, c, dm, mt, hi, he, er⟩ := s
  cases c <;> cases mt <;>
    simp [render, View.isLogin, View.isLoading, View.isDashboard]

/-- C9 witness: the initial (disconnected) state renders the login view
and the concrete connected state renders the dashboard. -/
theorem C9_render_threeway_witness :
    initialState.connected = false ∧
    render initialState = View.login initialState.error ∧
    (connectedState.connected = true ∧ connectedState.metrics ≠ none) ∧
    (render connectedState).isDashboard = true :=
  ⟨rfl, (C9_render_threeway initialState).2.1 rfl, ⟨rfl, by decide⟩,
    ((C9_render_threeway connectedState).2.2.2).mpr ⟨rfl, by decide⟩⟩

/-- C10: neither connect nor logout ever touches the health value; a
successful connect clears only history and metrics (error, theme and
health persist); logout clears only credential and connection flag; so
health survives a logout-and-reconnect, and the first dashboard render
of the new session (after its first successful poll) shows the health
indicator computed from the prior session's health value. -/
theorem C10_health_persistence (s : AppState) (c : String) (d : MetricsSnapshot)
    (t : String) :
    (submit c s).health = s.health ∧
    (logoutClick s).health = s.health ∧
    (jsTrim c ≠ "" →
      (submit c s).error = s.error ∧
      (submit c s).darkMode = s.darkMode ∧
      (submit c s).history = [] ∧
      (submit c s).metrics = none) ∧
    (jsTrim c ≠ "" →
      (processMetricsResponse (.success d t) (submit c (logoutClick s))).health =
        s.health ∧
      render (processMetricsResponse (.success d t) (submit c (logoutClick s))) =
        View.dashboard d (toChartData [mkSample d t]) (isHealthyIndicator s.health)) := by
  refine ⟨?_, rfl, ?_, ?_⟩
  · unfold submit setApiKeyInput connectClick
    split <;> rfl
  · intro h
    simp [submit, setApiKeyInput, connectClick, h]
  · intro h
    simp [submit, setApiKeyInput, connectClick, logoutClick, h,
      processMetricsResponse, render, lastN]

/-- C10 witness: logging out of the concrete connected state (healthy
health), reconnecting with the key "newkey" and completing one
successful poll. -/
theorem C10_health_persistence_witness :
    jsTrim "newkey" ≠ "" ∧
    (submit "newkey" connectedState).health = connectedState.health ∧
    (processMetricsResponse (.success laterSnapshot "t9")
        (submit "newkey" (logoutClick connectedState))).health =
      connectedState.health ∧
    render (processMetricsResponse (.success laterSnapshot "t9")
        (submit "newkey" (logoutClick connectedState))) =
      View.dashboard laterSnapshot (toChartData [mkSample laterSnapshot "t9"])
        (isHealthyIndicator connectedState.health) :=
  ⟨by decide,
    (C10_health_persistence connectedState "newkey" laterSnapshot "t9").1,
    ((C10_health_persistence connectedState "newkey" laterSnapshot "t9").2.2.2
      (by decide)).1,
    ((C10_health_persistence connectedState "newkey" laterSnapshot "t9").2.2.2
      (by decide)).2⟩

end Dashboard
